import Mathlib

/- Verification development for weather.py, a city-weather fetching and
   aggregation pipeline.

   Modelling conventions:
   - JSON-like Python values (parsed response bodies, dict entries) are the
     type JValue below; Python None is JValue.null.
   - The HTTP layer is abstracted by oracles.  For fetch_data_with_retries
     the oracle gives the outcome of each GET attempt; for the pipeline the
     oracles give, per city index, the value that fetch_data_with_retries
     returned for the geocoding and the weather request of that city
     (none models retry exhaustion, i.e. the Python function returned None).
   - A Python exception propagating out of a function is Except.error ().
   - Python floats are modelled as exact rationals. -/

inductive JValue : Type where
  | null : JValue
  | bool : Bool → JValue
  | num : ℚ → JValue
  | str : String → JValue
  | arr : List JValue → JValue
  | obj : List (String × JValue) → JValue

/- Python truthiness of the values a JValue can denote: None and zero and
   empty containers are falsy, everything else truthy. -/
def truthy : JValue → Bool
  | .null => false
  | .bool b => b
  | .num q => q != 0
  | .str s => s != ""
  | .arr xs => !xs.isEmpty
  | .obj fields => !fields.isEmpty

def isNull : JValue → Bool
  | .null => true
  | _ => false

/- Python dict.get on a dict with string keys: the stored value, or None
   when the key is missing. -/
def dictGet (fields : List (String × JValue)) (key : String) : JValue :=
  match fields.find? (fun p => p.1 == key) with
  | some p => p.2
  | none => .null

/- Python value.get(key): works on dicts, raises AttributeError on any
   other value. -/
def jget (v : JValue) (key : String) : Except Unit JValue :=
  match v with
  | .obj fields => .ok (dictGet fields key)
  | _ => .error ()

/- Python dict keys must be hashable: list and dict keys raise TypeError
   at insertion time. -/
def hashableKey : JValue → Bool
  | .arr _ => false
  | .obj _ => false
  | _ => true

/- Python equality on the hashable scalar values that can reach a dict key
   position in this program (resolved city names and the literal "stats").
   Cross-type numeric equalities such as True == 1 are not modelled; all
   keys arising in the modelled scenarios are strings. -/
def jeqKey : JValue → JValue → Bool
  | .null, .null => true
  | .bool a, .bool b => a == b
  | .num a, .num b => a == b
  | .str a, .str b => a == b
  | _, _ => false

-- Constants of weather.py.
def REQUEST_TIMEOUT_SECONDS : Nat := 10
def RETRY_ATTEMPTS : Nat := 3
def RETRY_DELAY : ℚ := 3 / 2
def CITY_SLEEP_DELAY : ℚ := 1 / 2
def DEFAULT_JSON_OUTPUT : String := "weather_output.json"
def DEFAULT_CSV_OUTPUT : String := "weather_output.csv"

/- The kinds of requests.RequestException caught by the retry loop:
   connection errors, timeouts, and non-2xx statuses raised by
   raise_for_status. -/
inductive FailKind : Type where
  | connError : FailKind
  | timeout : FailKind
  | badStatus : FailKind

/- Outcome of one GET attempt: a parsed JSON body, or a RequestException. -/
inductive FetchOutcome : Type where
  | success : JValue → FetchOutcome
  | failure : FailKind → FetchOutcome

def isFail : FetchOutcome → Bool
  | .success _ => false
  | .failure _ => true

/- Two attempt outcomes with the same shape: equal bodies on success, any
   failure kinds on failure. -/
def sameOutcome : FetchOutcome → FetchOutcome → Prop
  | .success b, .success b2 => b = b2
  | .failure _, .failure _ => True
  | _, _ => False

/- Observable behaviour of fetch_data_with_retries: the returned value,
   the number of GET requests issued, and the list of time.sleep waits
   (each RETRY_DELAY seconds) performed between failed attempts. -/
structure FetchTrace : Type where
  result : Option JValue
  requests : Nat
  sleeps : List ℚ

/- The body of the for-loop of fetch_data_with_retries, over the list of
   remaining attempt numbers.  On failure, the code sleeps and retries when
   further attempts remain (rest nonempty, i.e. attempt < retries) and
   returns None otherwise; falling off an empty loop also returns None. -/
def fetchGo (req : Nat → FetchOutcome) : List Nat → FetchTrace
  | [] => ⟨none, 0, []⟩
  | a :: rest =>
    match req a with
    | .success b => ⟨some b, 1, []⟩
    | .failure _ =>
      match rest with
      | [] => ⟨none, 1, []⟩
      | r :: rs =>
        let t := fetchGo req (r :: rs)
        ⟨t.result, t.requests + 1, RETRY_DELAY :: t.sleeps⟩

/- fetch_data_with_retries(url, params, retries): the loop runs over
   attempt numbers 1, ..., retries. -/
def fetch_data_with_retries (req : Nat → FetchOutcome) (retries : Nat) : FetchTrace :=
  fetchGo req (List.range' 1 retries)

/- get_city_coordinates, with the geocoding fetch result supplied as an
   oracle value (none = fetch_data_with_retries returned None).  Returns
   the (latitude, longitude, resolved_name) triple exactly as the Python
   code builds it; field values are passed through verbatim as JValues. -/
def get_city_coordinates (response_data : Option JValue) (city_name : String) :
    Except Unit (Option (JValue × JValue × JValue)) :=
  match response_data with
  | none => .ok none
  | some rd =>
    if truthy rd = false then .ok none
    else
      match jget rd "results" with
      | .error e => .error e
      | .ok results =>
        if truthy results = false then .ok none
        else
          match results with
          | .arr (city_info :: _) =>
            match city_info with
            | .obj fields =>
              let lat := dictGet fields "latitude"
              let lon := dictGet fields "longitude"
              let nm := dictGet fields "name"
              if isNull lat || isNull lon then .ok none
              else .ok (some (lat, lon, if truthy nm then nm else .str city_name))
            | _ => .error ()
          | _ => .error ()

/- The dict built by get_current_weather_for_coordinates from the
   current_weather section of the response. -/
structure Reading : Type where
  temperature : JValue
  windspeed : JValue
  winddirection : JValue
  weathercode : JValue
  timestamp : JValue

/- get_current_weather_for_coordinates, with the weather fetch result
   supplied as an oracle value. -/
def get_current_weather_for_coordinates (weather_data : Option JValue) :
    Except Unit (Option Reading) :=
  match weather_data with
  | none => .ok none
  | some wd =>
    if truthy wd = false then .ok none
    else
      match jget wd "current_weather" with
      | .error e => .error e
      | .ok current_weather =>
        if truthy current_weather = false then .ok none
        else
          match current_weather with
          | .obj fields =>
            .ok (some ⟨dictGet fields "temperature", dictGet fields "windspeed",
                       dictGet fields "winddirection", dictGet fields "weathercode",
                       dictGet fields "time"⟩)
          | _ => .error ()

/- The dict returned by compute_weather_stats. -/
structure Stats : Type where
  min : Option ℚ
  max : Option ℚ
  average : Option ℚ

/- compute_weather_stats on a list of float temperatures: min, max via the
   builtin fold, average = sum / len. -/
def compute_weather_stats (temperatures : List ℚ) : Stats :=
  match temperatures with
  | [] => ⟨none, none, none⟩
  | t :: ts =>
    ⟨some (ts.foldl min t), some (ts.foldl max t),
     some ((t :: ts).sum / ((t :: ts).length : ℚ))⟩

def optToJ : Option ℚ → JValue
  | none => .null
  | some q => .num q

def statsToJ (s : Stats) : JValue :=
  .obj [("min", optToJ s.min), ("max", optToJ s.max), ("average", optToJ s.average)]

/- The temperatures list of the pipeline holds raw JValues; the call
   compute_weather_stats(temperatures) computes on numbers and raises a
   TypeError on non-numeric entries (sum of strings, min of mixed types).
   Boolean temperatures, on which Python would still compute, are not
   modelled; no modelled scenario produces them. -/
def extractNums : List JValue → Option (List ℚ)
  | [] => some []
  | .num q :: rest => (extractNums rest).map (fun qs => q :: qs)
  | _ => none

def computeStatsJ (temps : List JValue) : Except Unit JValue :=
  match extractNums temps with
  | some qs => .ok (statsToJ (compute_weather_stats qs))
  | none => .error ()

/- Python dict assignment d[k] = v on an insertion-ordered dict: replace
   the value at the first (unique) matching key, else append. -/
def dictInsert (k v : JValue) : List (JValue × JValue) → List (JValue × JValue)
  | [] => [(k, v)]
  | (k2, v2) :: rest =>
    if jeqKey k k2 then (k2, v) :: rest
    else (k2, v2) :: dictInsert k v rest

/- The per-city loop of process_weather_for_cities.  State: the
   weather_results dict, the temperatures list, and the list of completed
   time.sleep(0.5) calls, recorded as (city index, delay).  The sleep in
   the source sits at the end of the loop body, after the success path, so
   a continue skips it. -/
def procLoop (geoR weatherR : Nat → Option JValue) :
    List String → Nat → List (JValue × JValue) → List JValue → List (Nat × ℚ) →
    Except Unit (List (JValue × JValue) × List JValue × List (Nat × ℚ))
  | [], _, results, temps, sleeps => .ok (results, temps, sleeps)
  | city :: rest, i, results, temps, sleeps =>
    match get_city_coordinates (geoR i) city with
    | .error e => .error e
    | .ok none => procLoop geoR weatherR rest (i + 1) results temps sleeps
    | .ok (some (_, _, name)) =>
      match get_current_weather_for_coordinates (weatherR i) with
      | .error e => .error e
      | .ok none => procLoop geoR weatherR rest (i + 1) results temps sleeps
      | .ok (some w) =>
        if hashableKey name then
          let entry := JValue.obj [("temperature", w.temperature),
            ("windspeed", w.windspeed), ("winddirection", w.winddirection),
            ("timestamp", w.timestamp)]
          let results2 := dictInsert name entry results
          let temps2 := if isNull w.temperature then temps else temps ++ [w.temperature]
          procLoop geoR weatherR rest (i + 1) results2 temps2 (sleeps ++ [(i, CITY_SLEEP_DELAY)])
        else .error ()

/- process_weather_for_cities.  After the loop it stores the stats dict
   under the key "stats" and writes the result.  The JSON branch writes to
   output_file or the default path (save_to_json swallows write errors, so
   it never raises).  The other branch calls save_to_csv, a name that is
   defined nowhere in the program, so it raises NameError: modelled as
   Except.error.  On success, returns the final dict, the sleep trace and
   the (path, data) pair that was written. -/
def process_weather_for_cities (geoR weatherR : Nat → Option JValue)
    (cities : List String) (output_format : String) (output_file : Option String) :
    Except Unit (List (JValue × JValue) × List (Nat × ℚ) × (String × List (JValue × JValue))) :=
  match procLoop geoR weatherR cities 0 [] [] [] with
  | .error e => .error e
  | .ok (results, temps, sleeps) =>
    match computeStatsJ temps with
    | .error e => .error e
    | .ok statsJ =>
      let results2 := dictInsert (.str "stats") statsJ results
      if output_format == "json" then
        .ok (results2, sleeps, (output_file.getD DEFAULT_JSON_OUTPUT, results2))
      else .error ()

/- Python str.strip with no argument: drop leading and trailing
   whitespace. -/
def pyStrip (s : String) : String :=
  ⟨((s.data.dropWhile Char.isWhitespace).reverse.dropWhile Char.isWhitespace).reverse⟩

/- read_city_names_from_file, with the file contents supplied as the list
   of raw lines, or Except.error when opening or reading raises.  The body
   strips each line and keeps the nonblank ones; exceptions are re-raised
   after a diagnostic message. -/
def read_city_names_from_file (contents : Except Unit (List String)) :
    Except Unit (List String) :=
  match contents with
  | .error e => .error e
  | .ok lines => .ok ((lines.map pyStrip).filter (fun s => s != ""))

namespace weatherpy

/- main: exit code plus the (path, data) output write, if one happened. -/
def main (contents : Except Unit (List String)) (geoR weatherR : Nat → Option JValue)
    (output_format : String) (out : Option String) :
    Nat × Option (String × List (JValue × JValue)) :=
  match read_city_names_from_file contents with
  | .error _ => (2, none)
  | .ok cities =>
    if cities.isEmpty then (3, none)
    else
      match process_weather_for_cities geoR weatherR cities output_format out with
      | .error _ => (1, none)
      | .ok (_, _, saved) => (0, some saved)

end weatherpy

/- The (index, resolved name) pairs of the cities that pass both the
   geocoding and the weather stage, read off the same oracles the loop
   consults. -/
def successList (geoR weatherR : Nat → Option JValue) :
    List String → Nat → List (Nat × JValue)
  | [], _ => []
  | city :: rest, i =>
    match get_city_coordinates (geoR i) city with
    | .ok (some (_, _, name)) =>
      match get_current_weather_for_coordinates (weatherR i) with
      | .ok (some _) => (i, name) :: successList geoR weatherR rest (i + 1)
      | _ => successList geoR weatherR rest (i + 1)
    | _ => successList geoR weatherR rest (i + 1)

/- Key-list effect of one dict insertion. -/
def insKey (ks : List JValue) (k : JValue) : List JValue :=
  if ks.any (fun k2 => jeqKey k k2) then ks else ks ++ [k]

/- The distinct keys, in first-occurrence order, that inserting a list of
   keys into an empty dict produces. -/
def dedupKeys (names : List JValue) : List JValue := names.foldl insKey []

/- Number of entries of a dict whose key equals k. -/
def keysCount (k : JValue) (d : List (JValue × JValue)) : Nat :=
  d.countP (fun p => jeqKey k p.1)

/- The average line of the statistics block of print_weather_summary:
   ok (some q) when the two-decimal line prints the stored average q,
   ok none when the falsy-average branch prints "n/a".  A truthy stored
   average that the :.2f float format cannot take raises; a truthy bool
   formats as its integer value. -/
def print_weather_summary_avg (stats : JValue) : Except Unit (Option ℚ) :=
  match jget stats "average" with
  | .error e => .error e
  | .ok a =>
    if truthy a then
      match a with
      | .num q => .ok (some q)
      | .bool b => .ok (some (if b then 1 else 0))
      | _ => .error ()
    else .ok none

-- Concrete oracle values used by counterexamples and witnesses.

/- A well-formed geocoding response resolving to the given name at
   latitude 1, longitude 2. -/
def goodGeo (name : String) : JValue :=
  .obj [("results", .arr [.obj [("latitude", .num 1), ("longitude", .num 2),
    ("name", .str name)]])]

/- A well-formed weather response with temperature 20. -/
def goodWeather : JValue :=
  .obj [("current_weather", .obj [("temperature", .num 20), ("windspeed", .num 5),
    ("winddirection", .num 90), ("weathercode", .num 1),
    ("time", .str "2026-01-01T00:00")])]

/- Environment where every geocoding call resolves to the name Paris and
   every weather call succeeds. -/
def c2geoR : Nat → Option JValue := fun _ => some (goodGeo "Paris")
def c2weatherR : Nat → Option JValue := fun _ => some goodWeather

/- Environment where the first city fails geocoding (retries exhausted)
   and later cities succeed. -/
def c4geoR : Nat → Option JValue := fun i => if i = 0 then none else some (goodGeo "Berlin")
def c4weatherR : Nat → Option JValue := fun _ => some goodWeather

/- Environment where every fetch exhausts its retries. -/
def c1geoR : Nat → Option JValue := fun _ => none
def c1weatherR : Nat → Option JValue := fun _ => none

/- A geocoding response whose first result has a longitude and a name but
   no latitude. -/
def c3fields : List (String × JValue) := [("longitude", .num 2), ("name", .str "Lyon")]
def c3resp : JValue := .obj [("results", .arr [.obj c3fields])]

-- Projections of the concrete runs used by witnesses.

def c2run := process_weather_for_cities c2geoR c2weatherR ["Paris"] "json" none

def c2res : List (JValue × JValue) :=
  match c2run with
  | .ok (r, _, _) => r
  | .error _ => []

def c2sl : List (Nat × ℚ) :=
  match c2run with
  | .ok (_, s, _) => s
  | .error _ => []

def c2sv : String × List (JValue × JValue) :=
  match c2run with
  | .ok (_, _, sv) => sv
  | .error _ => ("", [])

def c4run := process_weather_for_cities c4geoR c4weatherR ["Nowhere", "Berlin"] "json" none

def c4res : List (JValue × JValue) :=
  match c4run with
  | .ok (r, _, _) => r
  | .error _ => []

def c4sl : List (Nat × ℚ) :=
  match c4run with
  | .ok (_, s, _) => s
  | .error _ => []

def c4sv : String × List (JValue × JValue) :=
  match c4run with
  | .ok (_, _, sv) => sv
  | .error _ => ("", [])

-- General lemmas about the modelling primitives.

theorem beqComm {α : Type} [BEq α] [LawfulBEq α] (x y : α) : (x == y) = (y == x) := by
  by_cases h : x = y
  · subst h; rfl
  · have h1 : (x == y) = false := beq_eq_false_iff_ne.mpr h
    have h2 : (y == x) = false := beq_eq_false_iff_ne.mpr (Ne.symm h)
    rw [h1, h2]

theorem jeqKey_symm (a b : JValue) : jeqKey a b = jeqKey b a := by
  cases a <;> cases b <;> simp only [jeqKey] <;> try rfl
  all_goals apply beqComm

theorem jeqKey_eq_true {a b : JValue} (h : jeqKey a b = true) : a = b := by
  cases a <;> cases b <;> simp_all [jeqKey]

-- Lemmas about the builtin min and max folds used by compute_weather_stats.

theorem foldl_min_le (l : List ℚ) : ∀ a : ℚ, l.foldl min a ≤ a ∧ ∀ x ∈ l, l.foldl min a ≤ x := by
  induction l with
  | nil => intro a; exact ⟨le_refl a, by simp⟩
  | cons b rest ih =>
    intro a
    have h := ih (min a b)
    rw [List.foldl_cons]
    refine ⟨h.1.trans (min_le_left a b), ?_⟩
    intro x hx
    rcases List.mem_cons.mp hx with h1 | h1
    · subst h1; exact h.1.trans (min_le_right a x)
    · exact h.2 x h1

theorem foldl_min_mem (l : List ℚ) : ∀ a : ℚ, l.foldl min a = a ∨ l.foldl min a ∈ l := by
  induction l with
  | nil => intro a; left; rfl
  | cons b rest ih =>
    intro a
    rw [List.foldl_cons]
    rcases ih (min a b) with h | h
    · rcases min_choice a b with h2 | h2
      · left; rw [h, h2]
      · right; rw [h, h2]; exact List.mem_cons_self b rest
    · right; exact List.mem_cons_of_mem b h

theorem foldl_max_ge (l : List ℚ) : ∀ a : ℚ, a ≤ l.foldl max a ∧ ∀ x ∈ l, x ≤ l.foldl max a := by
  induction l with
  | nil => intro a; exact ⟨le_refl a, by simp⟩
  | cons b rest ih =>
    intro a
    have h := ih (max a b)
    rw [List.foldl_cons]
    refine ⟨(le_max_left a b).trans h.1, ?_⟩
    intro x hx
    rcases List.mem_cons.mp hx with h1 | h1
    · subst h1; exact (le_max_right a x).trans h.1
    · exact h.2 x h1

theorem foldl_max_mem (l : List ℚ) : ∀ a : ℚ, l.foldl max a = a ∨ l.foldl max a ∈ l := by
  induction l with
  | nil => intro a; left; rfl
  | cons b rest ih =>
    intro a
    rw [List.foldl_cons]
    rcases ih (max a b) with h | h
    · rcases max_choice a b with h2 | h2
      · left; rw [h, h2]
      · right; rw [h, h2]; exact List.mem_cons_self b rest
    · right; exact List.mem_cons_of_mem b h

/-- Claim C8: compute_weather_stats applied to the empty temperature sequence
returns a summary in which min, max and average are all absent. -/
theorem C8_compute_weather_stats_empty :
    compute_weather_stats [] = ⟨none, none, none⟩ := rfl

/-- Claim C7: for every non-empty temperature sequence, compute_weather_stats
returns min and max equal to the least and greatest elements (both attained,
with min below and max above every element) and average equal to the sum
divided by the count.  Python floats are modelled as exact rationals. -/
theorem C7_compute_weather_stats (temps : List ℚ) (h : temps ≠ []) :
    ∃ m M a, compute_weather_stats temps = ⟨some m, some M, some a⟩ ∧
      m ∈ temps ∧ M ∈ temps ∧ (∀ x ∈ temps, m ≤ x ∧ x ≤ M) ∧
      a = temps.sum / (temps.length : ℚ) := by
  match temps, h with
  | t :: ts, _ =>
    refine ⟨ts.foldl min t, ts.foldl max t, _, rfl, ?_, ?_, ?_, rfl⟩
    · rcases foldl_min_mem ts t with h1 | h1
      · rw [h1]; exact List.mem_cons_self t ts
      · exact List.mem_cons_of_mem t h1
    · rcases foldl_max_mem ts t with h1 | h1
      · rw [h1]; exact List.mem_cons_self t ts
      · exact List.mem_cons_of_mem t h1
    · intro x hx
      rcases List.mem_cons.mp hx with h1 | h1
      · subst h1; exact ⟨(foldl_min_le ts x).1, (foldl_max_ge ts x).1⟩
      · exact ⟨(foldl_min_le ts t).2 x h1, (foldl_max_ge ts t).2 x h1⟩

theorem C7_compute_weather_stats_witness :
    ([(10 : ℚ)] ≠ []) ∧
    (∃ m M a, compute_weather_stats [(10 : ℚ)] = ⟨some m, some M, some a⟩ ∧
      m ∈ [(10 : ℚ)] ∧ M ∈ [(10 : ℚ)] ∧ (∀ x ∈ [(10 : ℚ)], m ≤ x ∧ x ≤ M) ∧
      a = List.sum [(10 : ℚ)] / ((List.length [(10 : ℚ)]) : ℚ)) :=
  ⟨by simp, C7_compute_weather_stats [(10 : ℚ)] (by simp)⟩

/- The avg line on a stats dict holding a numeric average. -/
theorem avg_line_of_num (mn mx : Option ℚ) (q : ℚ) :
    print_weather_summary_avg (statsToJ ⟨mn, mx, some q⟩) =
      .ok (if q = 0 then none else some q) := by
  have hav : jget (statsToJ ⟨mn, mx, some q⟩) "average" = .ok (.num q) := rfl
  by_cases h : q = 0
  · subst h
    simp [print_weather_summary_avg, hav, truthy]
  · simp [print_weather_summary_avg, hav, truthy, h]

/-- Claim C9: the statistics block of print_weather_summary prints the stored
average (then formatted to two decimal places) exactly when it is present and
nonzero, and prints the n/a line when the average is absent or exactly zero:
over the stats dict produced by compute_weather_stats, the n/a branch is taken
iff the temperature sum is zero (in particular for the empty list). -/
theorem C9_print_weather_summary_avg (temps : List ℚ) :
    print_weather_summary_avg (statsToJ (compute_weather_stats temps)) =
      .ok (if temps.sum = 0 then none else some (temps.sum / (temps.length : ℚ))) := by
  cases temps with
  | nil => rfl
  | cons t ts =>
    rw [show compute_weather_stats (t :: ts) =
      ⟨some (ts.foldl min t), some (ts.foldl max t),
        some ((t :: ts).sum / (((t :: ts).length : ℕ) : ℚ))⟩ from rfl]
    rw [avg_line_of_num]
    have hl2 : ((ts.length : ℚ) + 1) ≠ 0 := by positivity
    by_cases hq : (t :: ts).sum = 0
    · simp [hq, zero_div]
    · simp [hq, hl2]

/-- Claim C1 (code bug): the spec says the delimited-text format flag makes the
program write the aggregated mapping as per-city rows plus a labeled stats row,
but the csv branch of process_weather_for_cities calls save_to_csv, a function
that is defined nowhere in the program, so every csv-format run raises
NameError instead of writing the file, and main maps it to exit code 1 with no
output written. -/
theorem C1_csv_branch_raises :
    process_weather_for_cities c1geoR c1weatherR ["Paris"] "csv" none = .error () ∧
    weatherpy.main (.ok ["Paris"]) c1geoR c1weatherR "csv" none = (1, none) :=
  ⟨rfl, rfl⟩

/-- Claim C10: a weather response whose current_weather section is present but
an empty mapping makes get_current_weather_for_coordinates return absence (the
truthiness test), a fetcher absence returns absence, and any falsy top-level
response body is likewise treated as absence. -/
theorem C10_falsy_weather_sections :
    get_current_weather_for_coordinates
        (some (JValue.obj [("current_weather", JValue.obj [])])) = .ok none ∧
    get_current_weather_for_coordinates none = .ok none ∧
    (∀ v : JValue, truthy v = false →
      get_current_weather_for_coordinates (some v) = .ok none) := by
  refine ⟨rfl, rfl, ?_⟩
  intro v hv
  simp [get_current_weather_for_coordinates, hv]

theorem C10_falsy_weather_sections_witness :
    truthy (JValue.obj []) = false ∧
    get_current_weather_for_coordinates (some (JValue.obj [])) = .ok none :=
  ⟨rfl, C10_falsy_weather_sections.2.2 (JValue.obj []) rfl⟩

/-- Claim C3 (amended): get_city_coordinates returns absence iff the fetcher
returned absence, the response body is falsy, the results entry is falsy
(empty or missing), or the first result lacks latitude OR lacks longitude
(value missing or null) — not only when it lacks both; otherwise it returns
the (latitude, longitude, resolved name) triple from the first result, the
resolved name falling back to the input city name when the name field is
falsy.  Malformed responses (non-dict bodies, a truthy non-sequence results
entry, a non-dict first result) raise instead. -/
theorem C3_get_city_coordinates (city : String) :
    (get_city_coordinates none city = .ok none) ∧
    (∀ rd : JValue, truthy rd = false → get_city_coordinates (some rd) city = .ok none) ∧
    (∀ rd results : JValue, truthy rd = true → jget rd "results" = .ok results →
      truthy results = false → get_city_coordinates (some rd) city = .ok none) ∧
    (∀ (rd : JValue) (fields : List (String × JValue)) (rest : List JValue),
      truthy rd = true →
      jget rd "results" = .ok (.arr (.obj fields :: rest)) →
      get_city_coordinates (some rd) city =
        (if isNull (dictGet fields "latitude") || isNull (dictGet fields "longitude")
         then .ok none
         else .ok (some (dictGet fields "latitude", dictGet fields "longitude",
           if truthy (dictGet fields "name") then dictGet fields "name"
           else .str city)))) := by
  refine ⟨rfl, ?_, ?_, ?_⟩
  · intro rd h
    simp [get_city_coordinates, h]
  · intro rd results h1 h2 h3
    simp [get_city_coordinates, h1, h2, h3]
  · intro rd fields rest h1 h2
    cases rd <;> simp [jget] at h2
    rename_i f
    have harr : truthy (JValue.arr (JValue.obj fields :: rest)) = true := rfl
    simp only [get_city_coordinates, jget, h1, h2, harr, Bool.true_eq_false, if_false]

theorem C3_get_city_coordinates_witness :
    get_city_coordinates (some (goodGeo "Paris")) "X" =
      .ok (some (.num 1, .num 2, .str "Paris")) := by
  have h := (C3_get_city_coordinates "X").2.2.2 (goodGeo "Paris")
    [("latitude", JValue.num 1), ("longitude", JValue.num 2), ("name", JValue.str "Paris")]
    [] rfl rfl
  rw [h]
  rfl

/-- Claim C3 counterexample: a response whose first result carries a longitude
(and a name) but no latitude does not lack both coordinates, so the claim says
the triple is returned; the code returns absence because one of the two is
missing. -/
theorem C3_lacks_either_counterexample :
    get_city_coordinates (some c3resp) "Lyon" = .ok none ∧
    isNull (dictGet c3fields "latitude") = true ∧
    isNull (dictGet c3fields "longitude") = false :=
  ⟨rfl, rfl, rfl⟩

theorem fetchGo_requests_le (req : Nat → FetchOutcome) (l : List Nat) :
    (fetchGo req l).requests ≤ l.length := by
  induction l with
  | nil => simp [fetchGo]
  | cons a rest ih =>
    cases rest with
    | nil => cases hr : req a <;> simp [fetchGo, hr]
    | cons r rs =>
      cases hr : req a with
      | success b => simp [fetchGo, hr]
      | failure k =>
        simp only [fetchGo, hr, List.length_cons]
        simp only [List.length_cons] at ih
        omega

theorem fetchGo_all_fail (req : Nat → FetchOutcome) (l : List Nat)
    (h : ∀ a ∈ l, isFail (req a) = true) :
    fetchGo req l = ⟨none, l.length, List.replicate (l.length - 1) RETRY_DELAY⟩ := by
  induction l with
  | nil => rfl
  | cons a rest ih =>
    have ha : isFail (req a) = true := h a (List.mem_cons_self a rest)
    cases hr : req a with
    | success b => rw [hr] at ha; simp [isFail] at ha
    | failure k =>
      cases rest with
      | nil => simp [fetchGo, hr]
      | cons r rs =>
        have h2 : ∀ x ∈ r :: rs, isFail (req x) = true :=
          fun x hx => h x (List.mem_cons_of_mem a hx)
        simp only [fetchGo, hr, ih h2, List.length_cons]
        simp [List.replicate_succ]

theorem fetchGo_first_success (req : Nat → FetchOutcome) (l1 : List Nat) (a : Nat)
    (l2 : List Nat) (b : JValue) (h1 : ∀ x ∈ l1, isFail (req x) = true)
    (h2 : req a = .success b) :
    fetchGo req (l1 ++ a :: l2) =
      ⟨some b, l1.length + 1, List.replicate l1.length RETRY_DELAY⟩ := by
  induction l1 with
  | nil =>
    cases l2 with
    | nil => simp [fetchGo, h2]
    | cons r rs => simp [fetchGo, h2]
  | cons x rest ih =>
    have hx : isFail (req x) = true := h1 x (List.mem_cons_self x rest)
    cases hr : req x with
    | success c => rw [hr] at hx; simp [isFail] at hx
    | failure k =>
      obtain ⟨y, ys, hys⟩ : ∃ y ys, rest ++ a :: l2 = y :: ys := by
        cases rest with
        | nil => exact ⟨a, l2, rfl⟩
        | cons u us => exact ⟨u, us ++ a :: l2, by simp⟩
      have ihr := ih (fun z hz => h1 z (List.mem_cons_of_mem x hz))
      rw [List.cons_append, hys]
      simp only [fetchGo, hr]
      rw [← hys, ihr]
      simp [List.replicate_succ]

theorem fetchGo_congr (req req2 : Nat → FetchOutcome)
    (h : ∀ i, sameOutcome (req i) (req2 i)) :
    ∀ l : List Nat, fetchGo req l = fetchGo req2 l := by
  intro l
  induction l with
  | nil => rfl
  | cons a rest ih =>
    have ha := h a
    cases h1 : req a with
    | success b =>
      cases h2 : req2 a with
      | success b2 =>
        rw [h1, h2] at ha
        simp only [sameOutcome] at ha
        cases rest with
        | nil => simp [fetchGo, h1, h2, ha]
        | cons r rs => simp [fetchGo, h1, h2, ha]
      | failure k => rw [h1, h2] at ha; simp [sameOutcome] at ha
    | failure k =>
      cases h2 : req2 a with
      | success b2 => rw [h1, h2] at ha; simp [sameOutcome] at ha
      | failure k2 =>
        cases rest with
        | nil => simp [fetchGo, h1, h2]
        | cons r rs => simp [fetchGo, h1, h2, ih]

/-- Claim C5: for every request oracle and attempt bound n at least 1,
fetch_data_with_retries issues at most n GET requests; when every attempt
fails it performs exactly n requests with a fixed RETRY_DELAY wait after each
failing attempt that still has attempts remaining (n - 1 waits) and returns
absence; when attempt k is the first success it returns that parsed body
after k requests and k - 1 waits; and the behaviour depends only on the
success or failure of each attempt, never on the kind of failure
(connection error, timeout, or non-2xx status). -/
theorem C5_fetch_data_with_retries (req : Nat → FetchOutcome) (n : Nat) (hn : 1 ≤ n) :
    ((fetch_data_with_retries req n).requests ≤ n) ∧
    ((∀ i, 1 ≤ i → i ≤ n → isFail (req i) = true) →
      fetch_data_with_retries req n = ⟨none, n, List.replicate (n - 1) RETRY_DELAY⟩) ∧
    (∀ k b, 1 ≤ k → k ≤ n → req k = .success b →
      (∀ i, 1 ≤ i → i < k → isFail (req i) = true) →
      fetch_data_with_retries req n = ⟨some b, k, List.replicate (k - 1) RETRY_DELAY⟩) ∧
    (∀ req2 : Nat → FetchOutcome, (∀ i, sameOutcome (req i) (req2 i)) →
      fetch_data_with_retries req n = fetch_data_with_retries req2 n) := by
  refine ⟨?_, ?_, ?_, ?_⟩
  · have h := fetchGo_requests_le req (List.range' 1 n)
    simpa [fetch_data_with_retries] using h
  · intro h
    have hall : ∀ a ∈ List.range' 1 n, isFail (req a) = true := by
      intro a ha
      have hm := List.mem_range'_1.mp ha
      exact h a hm.1 (by omega)
    have := fetchGo_all_fail req (List.range' 1 n) hall
    simpa [fetch_data_with_retries] using this
  · intro k b hk1 hkn hkb hfail
    have hsplit : List.range' 1 n = List.range' 1 (k - 1) ++ k :: List.range' (k + 1) (n - k) := by
      have e1 := List.range'_append_1 1 (k - 1) ((n - k) + 1)
      rw [show (n - k + 1) + (k - 1) = n from by omega] at e1
      rw [← e1]
      congr 1
      rw [show 1 + (k - 1) = k from by omega, List.range'_succ]
    have hfl : ∀ x ∈ List.range' 1 (k - 1), isFail (req x) = true := by
      intro x hx
      have hm := List.mem_range'_1.mp hx
      exact hfail x hm.1 (by omega)
    rw [fetch_data_with_retries, hsplit, fetchGo_first_success req _ k _ b hfl hkb]
    simp only [List.length_range']
    rw [show k - 1 + 1 = k from by omega]
  · intro req2 h
    exact fetchGo_congr req req2 h (List.range' 1 n)

theorem C5_fetch_data_with_retries_witness :
    (1 ≤ 2) ∧
    fetch_data_with_retries (fun _ => FetchOutcome.failure .timeout) 2 =
      ⟨none, 2, List.replicate 1 RETRY_DELAY⟩ :=
  ⟨by norm_num,
    (C5_fetch_data_with_retries (fun _ => FetchOutcome.failure .timeout) 2
      (by norm_num)).2.1 (fun i h1 h2 => rfl)⟩

theorem dictInsert_keys (k v : JValue) (d : List (JValue × JValue)) :
    (dictInsert k v d).map Prod.fst = insKey (d.map Prod.fst) k := by
  induction d with
  | nil => simp [dictInsert, insKey]
  | cons p rest ih =>
    obtain ⟨k2, v2⟩ := p
    by_cases h : jeqKey k k2 = true
    · simp [dictInsert, insKey, h]
    · have h2 : jeqKey k k2 = false := Bool.eq_false_iff.mpr h
      simp only [dictInsert, h2, Bool.false_eq_true, if_false, List.map_cons]
      rw [ih]
      simp only [insKey, List.any_cons, h2, Bool.false_or]
      by_cases h3 : (rest.map Prod.fst).any (fun k3 => jeqKey k k3) = true
      · simp [h3]
      · have h4 := Bool.eq_false_iff.mpr h3
        simp [h4]

theorem mem_foldl_insKey (l : List JValue) :
    ∀ (ks : List JValue) (x : JValue), x ∈ l.foldl insKey ks → x ∈ ks ∨ x ∈ l := by
  induction l with
  | nil => intro ks x hx; exact Or.inl hx
  | cons a rest ih =>
    intro ks x hx
    rw [List.foldl_cons] at hx
    rcases ih (insKey ks a) x hx with h | h
    · simp only [insKey] at h
      by_cases hc : (ks.any (fun k2 => jeqKey a k2)) = true
      · rw [if_pos hc] at h
        exact Or.inl h
      · rw [if_neg hc] at h
        rcases List.mem_append.mp h with h2 | h2
        · exact Or.inl h2
        · simp only [List.mem_singleton] at h2
          exact Or.inr (by simp [h2])
    · exact Or.inr (List.mem_cons_of_mem a h)

theorem foldl_insKey_len (l : List JValue) :
    ∀ ks : List JValue, l.Pairwise (fun a b => jeqKey a b = false) →
    (∀ x ∈ l, ks.any (fun k2 => jeqKey x k2) = false) →
    (l.foldl insKey ks).length = ks.length + l.length := by
  induction l with
  | nil => intro ks _ _; simp
  | cons a rest ih =>
    intro ks hpw hks
    rw [List.foldl_cons]
    have ha : ks.any (fun k2 => jeqKey a k2) = false := hks a (List.mem_cons_self a rest)
    have hins : insKey ks a = ks ++ [a] := by simp [insKey, ha]
    rw [hins]
    have hhead : ∀ b ∈ rest, jeqKey a b = false := (List.pairwise_cons.mp hpw).1
    have hpw2 := (List.pairwise_cons.mp hpw).2
    have hks2 : ∀ x ∈ rest, ((ks ++ [a]).any (fun k2 => jeqKey x k2)) = false := by
      intro x hxr
      rw [List.any_append]
      have h1 : ks.any (fun k2 => jeqKey x k2) = false := hks x (List.mem_cons_of_mem a hxr)
      have h2 : ([a].any (fun k2 => jeqKey x k2)) = false := by
        simp only [List.any_cons, List.any_nil, Bool.or_false]
        rw [jeqKey_symm]
        exact hhead x hxr
      rw [h1, h2]
      rfl
    rw [ih (ks ++ [a]) hpw2 hks2]
    simp only [List.length_append, List.length_cons, List.length_nil]
    omega

theorem procLoop_ok_sleeps (geoR weatherR : Nat → Option JValue) :
    ∀ (cities : List String) (i : Nat) (acc : List (JValue × JValue))
      (temps : List JValue) (sleeps : List (Nat × ℚ))
      (r : List (JValue × JValue)) (t : List JValue) (s : List (Nat × ℚ)),
      procLoop geoR weatherR cities i acc temps sleeps = .ok (r, t, s) →
      s = sleeps ++ (successList geoR weatherR cities i).map (fun p => (p.1, CITY_SLEEP_DELAY)) := by
  intro cities
  induction cities with
  | nil =>
    intro i acc temps sleeps r t s h
    simp only [procLoop, Except.ok.injEq, Prod.mk.injEq] at h
    simp [successList, ← h.2.2]
  | cons city rest ih =>
    intro i acc temps sleeps r t s h
    cases hg : get_city_coordinates (geoR i) city with
    | error e => simp [procLoop, hg] at h
    | ok oc =>
      cases oc with
      | none =>
        simp only [procLoop, hg] at h
        have := ih (i + 1) acc temps sleeps r t s h
        simpa [successList, hg] using this
      | some trip =>
        obtain ⟨lat, lon, name⟩ := trip
        cases hw : get_current_weather_for_coordinates (weatherR i) with
        | error e => simp [procLoop, hg, hw] at h
        | ok ow =>
          cases ow with
          | none =>
            simp only [procLoop, hg, hw] at h
            have := ih (i + 1) acc temps sleeps r t s h
            simpa [successList, hg, hw] using this
          | some w =>
            by_cases hh : hashableKey name = true
            · simp only [procLoop, hg, hw, hh, if_true] at h
              have := ih (i + 1) _ _ _ r t s h
              rw [this]
              simp [successList, hg, hw, List.append_assoc]
            · simp [procLoop, hg, hw, hh] at h

theorem procLoop_ok_keys (geoR weatherR : Nat → Option JValue) :
    ∀ (cities : List String) (i : Nat) (acc : List (JValue × JValue))
      (temps : List JValue) (sleeps : List (Nat × ℚ))
      (r : List (JValue × JValue)) (t : List JValue) (s : List (Nat × ℚ)),
      procLoop geoR weatherR cities i acc temps sleeps = .ok (r, t, s) →
      r.map Prod.fst =
        ((successList geoR weatherR cities i).map Prod.snd).foldl insKey (acc.map Prod.fst) := by
  intro cities
  induction cities with
  | nil =>
    intro i acc temps sleeps r t s h
    simp only [procLoop, Except.ok.injEq, Prod.mk.injEq] at h
    simp [successList, ← h.1]
  | cons city rest ih =>
    intro i acc temps sleeps r t s h
    cases hg : get_city_coordinates (geoR i) city with
    | error e => simp [procLoop, hg] at h
    | ok oc =>
      cases oc with
      | none =>
        simp only [procLoop, hg] at h
        have := ih (i + 1) acc temps sleeps r t s h
        simpa [successList, hg] using this
      | some trip =>
        obtain ⟨lat, lon, name⟩ := trip
        cases hw : get_current_weather_for_coordinates (weatherR i) with
        | error e => simp [procLoop, hg, hw] at h
        | ok ow =>
          cases ow with
          | none =>
            simp only [procLoop, hg, hw] at h
            have := ih (i + 1) acc temps sleeps r t s h
            simpa [successList, hg, hw] using this
          | some w =>
            by_cases hh : hashableKey name = true
            · simp only [procLoop, hg, hw, hh, if_true] at h
              have := ih (i + 1) _ _ _ r t s h
              rw [this, dictInsert_keys]
              simp [successList, hg, hw]
            · simp [procLoop, hg, hw, hh] at h

theorem keysCount_eq (k : JValue) (d : List (JValue × JValue)) :
    keysCount k d = (d.map Prod.fst).countP (fun k2 => jeqKey k k2) := by
  rw [keysCount, List.countP_map]
  rfl

/-- Claim C4 (amended): the fixed CITY_SLEEP_DELAY (0.5 second) pause runs
only at the end of the success path of the loop body, so a completed run
pauses exactly once after each successfully recorded city (including the
last one); cities skipped for geocoding or weather-lookup failures are
followed by no pause, so no pause separates a skipped city from the next
one. -/
theorem C4_pause_after_each_success (geoR weatherR : Nat → Option JValue)
    (cities : List String) (out : Option String)
    (r : List (JValue × JValue)) (sl : List (Nat × ℚ)) (sv : String × List (JValue × JValue))
    (hok : process_weather_for_cities geoR weatherR cities "json" out = .ok (r, sl, sv)) :
    sl = (successList geoR weatherR cities 0).map (fun p => (p.1, CITY_SLEEP_DELAY)) := by
  unfold process_weather_for_cities at hok
  cases hl : procLoop geoR weatherR cities 0 [] [] [] with
  | error e => rw [hl] at hok; simp at hok
  | ok trip =>
    obtain ⟨r0, temps, sleeps⟩ := trip
    rw [hl] at hok
    simp only [Except.ok.injEq] at hok
    cases hc : computeStatsJ temps with
    | error e => rw [hc] at hok; simp at hok
    | ok stJ =>
      rw [hc] at hok
      simp only [beq_self_eq_true, if_true, Except.ok.injEq, Prod.mk.injEq] at hok
      obtain ⟨-, hsl, -⟩ := hok
      rw [← hsl]
      simpa using procLoop_ok_sleeps geoR weatherR cities 0 [] [] [] r0 temps sleeps hl

/-- Claim C2 (amended): a completed run returns a mapping with exactly one
stats key; per-city entries are keyed by resolved name, so the key count is
1 plus the number of DISTINCT resolved names of the successfully resolved
and fetched cities (provided no city resolves to the literal name stats),
which equals 1 plus the number of such cities only when their resolved
names are pairwise distinct. -/
theorem C2_stats_key_and_entry_count (geoR weatherR : Nat → Option JValue)
    (cities : List String) (out : Option String)
    (r : List (JValue × JValue)) (sl : List (Nat × ℚ)) (sv : String × List (JValue × JValue))
    (hok : process_weather_for_cities geoR weatherR cities "json" out = .ok (r, sl, sv))
    (hst : ∀ nm ∈ (successList geoR weatherR cities 0).map Prod.snd,
      jeqKey (.str "stats") nm = false) :
    keysCount (.str "stats") r = 1 ∧
    r.length = (dedupKeys ((successList geoR weatherR cities 0).map Prod.snd)).length + 1 ∧
    (((successList geoR weatherR cities 0).map Prod.snd).Pairwise
        (fun a b => jeqKey a b = false) →
      r.length = (successList geoR weatherR cities 0).length + 1) := by
  unfold process_weather_for_cities at hok
  cases hl : procLoop geoR weatherR cities 0 [] [] [] with
  | error e => rw [hl] at hok; simp at hok
  | ok trip =>
    obtain ⟨r0, temps, sleeps⟩ := trip
    rw [hl] at hok
    simp only [Except.ok.injEq] at hok
    cases hc : computeStatsJ temps with
    | error e => rw [hc] at hok; simp at hok
    | ok stJ =>
      rw [hc] at hok
      simp only [beq_self_eq_true, if_true, Except.ok.injEq, Prod.mk.injEq] at hok
      obtain ⟨hr, -, -⟩ := hok
      have hkeys := procLoop_ok_keys geoR weatherR cities 0 [] [] [] r0 temps sleeps hl
      simp only [List.map_nil] at hkeys
      set names := (successList geoR weatherR cities 0).map Prod.snd with hnames
      have hnost : (r0.map Prod.fst).any (fun k2 => jeqKey (.str "stats") k2) = false := by
        rw [hkeys]
        rw [← Bool.not_eq_true]
        intro hany
        rcases List.any_eq_true.mp hany with ⟨x, hxmem, hpx⟩
        rcases mem_foldl_insKey names [] x hxmem with h | h
        · simp at h
        · rw [hst x h] at hpx
          exact Bool.false_ne_true hpx
      have hkr : r.map Prod.fst = r0.map Prod.fst ++ [JValue.str "stats"] := by
        rw [← hr, dictInsert_keys]
        simp [insKey, hnost]
      have hrlen : r.length = (names.foldl insKey []).length + 1 := by
        have h1 : r.length = (r.map Prod.fst).length := by rw [List.length_map]
        rw [h1, hkr, List.length_append, hkeys]
        rfl
      refine ⟨?_, ?_, ?_⟩
      · rw [keysCount_eq, hkr, List.countP_append]
        have h0 : (r0.map Prod.fst).countP (fun k2 => jeqKey (.str "stats") k2) = 0 := by
          rw [List.countP_eq_zero]
          intro x hx hpx
          have hh : (r0.map Prod.fst).any (fun k2 => jeqKey (.str "stats") k2) = true :=
            List.any_eq_true.mpr ⟨x, hx, hpx⟩
          rw [hnost] at hh
          exact Bool.false_ne_true hh
        rw [h0]
        rfl
      · rw [hrlen]
        rfl
      · intro hpw
        rw [hrlen, foldl_insKey_len names [] hpw (fun x hx => rfl)]
        simp [hnames, List.length_map]

/-- Claim C6: main exits with code 2 when reading the city file raises, 3
when the file is read but holds no usable (nonblank) city name, 1 when an
exception escapes the fetch and aggregate pipeline, and 0 when the pipeline
completes; in the exit-2 and exit-3 cases no output file is written. -/
theorem C6_main_exit_codes (contents : Except Unit (List String))
    (geoR weatherR : Nat → Option JValue) (fmt : String) (out : Option String) :
    (contents = .error () → weatherpy.main contents geoR weatherR fmt out = (2, none)) ∧
    (∀ lines, contents = .ok lines →
      ((lines.map pyStrip).filter (fun s => s != "")) = [] →
      weatherpy.main contents geoR weatherR fmt out = (3, none)) ∧
    (∀ lines, contents = .ok lines →
      ((lines.map pyStrip).filter (fun s => s != "")) ≠ [] →
      (process_weather_for_cities geoR weatherR
          ((lines.map pyStrip).filter (fun s => s != "")) fmt out = .error () →
        weatherpy.main contents geoR weatherR fmt out = (1, none)) ∧
      (∀ r sl sv, process_weather_for_cities geoR weatherR
          ((lines.map pyStrip).filter (fun s => s != "")) fmt out = .ok (r, sl, sv) →
        weatherpy.main contents geoR weatherR fmt out = (0, some sv))) := by
  refine ⟨?_, ?_, ?_⟩
  · intro h
    subst h
    rfl
  · intro lines h hemp
    subst h
    simp [weatherpy.main, read_city_names_from_file, hemp]
  · intro lines h hne
    subst h
    constructor
    · intro hp
      simp [weatherpy.main, read_city_names_from_file, hne, hp]
    · intro r sl sv hp
      simp [weatherpy.main, read_city_names_from_file, hne, hp]

theorem C4_pause_after_each_success_witness : c4sl = [(1, CITY_SLEEP_DELAY)] := by
  have h := C4_pause_after_each_success c4geoR c4weatherR ["Nowhere", "Berlin"] none c4res c4sl c4sv rfl
  rw [h]
  rfl

/-- Claim C4 counterexample: with two cities where the first fails geocoding
and the second succeeds, the only pause of the whole run comes after the
second city (index 1); no pause is introduced between the two consecutive
cities, although the claim demands one regardless of the first city being
skipped. -/
theorem C4_no_pause_after_skipped_city :
    (process_weather_for_cities c4geoR c4weatherR ["Nowhere", "Berlin"] "json" none).toOption.map
      (fun x => x.2.1) = some [(1, CITY_SLEEP_DELAY)] ∧
    (∀ q : ℚ, ((0 : Nat), q) ∉ [((1 : Nat), CITY_SLEEP_DELAY)]) := by
  refine ⟨rfl, ?_⟩
  intro q hq
  simp at hq

theorem C2_stats_key_and_entry_count_witness :
    keysCount (.str "stats") c2res = 1 ∧
    c2res.length = (dedupKeys ((successList c2geoR c2weatherR ["Paris"] 0).map Prod.snd)).length + 1 := by
  have hs : (successList c2geoR c2weatherR ["Paris"] 0).map Prod.snd = [JValue.str "Paris"] := rfl
  have hst : ∀ nm ∈ (successList c2geoR c2weatherR ["Paris"] 0).map Prod.snd,
      jeqKey (.str "stats") nm = false := by
    intro nm hnm
    rw [hs] at hnm
    simp only [List.mem_singleton] at hnm
    subst hnm
    rfl
  have h := C2_stats_key_and_entry_count c2geoR c2weatherR ["Paris"] none c2res c2sl c2sv rfl hst
  exact ⟨h.1, h.2.1⟩

/-- Claim C2 counterexample: two successfully fetched cities sharing the
resolved name Paris yield a mapping with 2 keys, not 1 + 2 = 3 as the claim
states. -/
theorem C2_duplicate_resolved_name_counterexample :
    (process_weather_for_cities c2geoR c2weatherR ["Paris", "Paris"] "json" none).toOption.map
      (fun x => x.1.length) = some 2 ∧
    (successList c2geoR c2weatherR ["Paris", "Paris"] 0).length = 2 ∧
    (2 : Nat) ≠ 1 + 2 :=
  ⟨rfl, rfl, by decide⟩

theorem C6_main_exit_codes_witness :
    weatherpy.main (.error ()) c2geoR c2weatherR "json" none = (2, none) ∧
    weatherpy.main (.ok ["", "  "]) c2geoR c2weatherR "json" none = (3, none) ∧
    weatherpy.main (.ok [" Paris "]) c1geoR c1weatherR "csv" none = (1, none) ∧
    weatherpy.main (.ok ["Paris"]) c2geoR c2weatherR "json" none = (0, some c2sv) := by
  refine ⟨?_, ?_, ?_, ?_⟩
  · exact (C6_main_exit_codes (.error ()) c2geoR c2weatherR "json" none).1 rfl
  · exact (C6_main_exit_codes (.ok ["", "  "]) c2geoR c2weatherR "json" none).2.1 ["", "  "] rfl rfl
  · exact ((C6_main_exit_codes (.ok [" Paris "]) c1geoR c1weatherR "csv" none).2.2 [" Paris "] rfl
      (by decide)).1 rfl
  · exact ((C6_main_exit_codes (.ok ["Paris"]) c2geoR c2weatherR "json" none).2.2 ["Paris"] rfl
      (by decide)).2 c2res c2sl c2sv rfl
